import Mathlib

/-!
Shallow embedding of the penora-write backend (src/auth.py and src/main.py):
identity records, bcrypt-style password hashing, JWT session tokens, the
sign-up / login / federated-login flows, and the story (document) CRUD
handlers with their ownership filters.  External cryptographic primitives
(bcrypt, the HS256 MAC of the jose library) are modelled as ideal:
a hash records the exact plaintext and salt it was built from, and a MAC
is valid exactly when it was produced from the same secret and payload.
-/

/-- Ideal model of a bcrypt hash: `bcrypt.hashpw(p, gensalt())` produces an
opaque value determined by the plaintext and the random salt.  `checkpw`
succeeds exactly on the original plaintext. -/
structure BcryptHash where
  plain : String
  salt : Nat
deriving Repr, DecidableEq

/-- bcrypt.hashpw from src/auth.py line 111 (salt made explicit). -/
def hashpw (p : String) (salt : Nat) : BcryptHash := ⟨p, salt⟩

/-- bcrypt.checkpw from src/auth.py line 120. -/
def checkpw (p : String) (h : BcryptHash) : Bool := h.plain == p

/-- `MAX_PASSWORD_LENGTH = 128` from src/auth.py line 27.  (The constant is
declared in the source; whether anything uses it is settled by theorems.) -/
def MAX_PASSWORD_LENGTH : Nat := 128

/-- `ACCESS_TOKEN_EXPIRE_MINUTES = 30` from src/auth.py line 26. -/
def ACCESS_TOKEN_EXPIRE_MINUTES : Nat := 30

/-- The JWT claim set this service encodes (src/auth.py lines 123-126 and
159-162): a `username` claim and an absolute expiry `exp` (seconds).
`sub` is carried because `get_current_user` in src/main.py also reads it. -/
structure TokenPayload where
  username : Option String
  sub : Option String
  exp : Nat
deriving Repr, DecidableEq

/-- Ideal HS256 MAC: the tag is valid for exactly the (secret, payload) pair
it was computed from (models `jwt.encode` signing / `jwt.decode` checking). -/
def macSign (secret : String) (p : TokenPayload) : String × TokenPayload :=
  (secret, p)

/-- A signed token: payload plus signature tag. -/
structure Token where
  payload : TokenPayload
  sig : String × TokenPayload
deriving Repr, DecidableEq

/-- `jwt.encode(claims, SECRET_KEY, algorithm=ALGORITHM)`. -/
def jwtEncode (secret : String) (p : TokenPayload) : Token :=
  ⟨p, macSign secret p⟩

/-- Token issuance as done at src/auth.py lines 123-126 and 159-162:
claims are the username and `utcnow + 30 minutes` (seconds). -/
def issueToken (secret : String) (subject : String) (now : Nat) : Token :=
  jwtEncode secret ⟨some subject, none, now + ACCESS_TOKEN_EXPIRE_MINUTES * 60⟩

/-- Python truthiness of an optional string: `None` and `""` are falsy. -/
def pyTruthy (s : Option String) : Bool :=
  match s with
  | none => false
  | some v => v != ""

/-- Python `a or b` on two optional strings (src/main.py line 46). -/
def pyOrStr (a b : Option String) : Option String :=
  if pyTruthy a then a else b

/-- Outcome of a request handler: a success value, an `HTTPException`
with status and detail, or an uncaught exception (HTTP 500). -/
inductive Outcome (α : Type) where
  | ok (v : α)
  | httpError (status : Nat) (detail : String)
  | serverError (msg : String)
deriving Repr, DecidableEq

/-- `get_current_user` from src/main.py lines 40-51: `jwt.decode` verifies
the signature and that the token is not expired (python-jose treats the
token as expired exactly when `exp < now`), then the handler reads
`payload.get("username") or payload.get("sub")` and rejects `None`. -/
def get_current_user (secret : String) (now : Nat) (tok : Token) : Outcome String :=
  if tok.sig = macSign secret tok.payload ∧ now ≤ tok.payload.exp then
    match pyOrStr tok.payload.username tok.payload.sub with
    | none => .httpError 401 "Could not validate credentials"
    | some u => .ok u
  else .httpError 401 "Could not validate credentials"

/-- One document of the `users` collection.  Local sign-up stores only
`username` and `hashed_password` (src/auth.py line 112); federated login
stores `username`, `google_id`, `name`, `email`, `created_at`
(src/auth.py lines 147-153).  Absent fields are `none`. -/
structure UserRec where
  username : String
  hashed_password : Option BcryptHash
  google_id : Option String
  name : Option String
  email : Option String
  created_at : Option Nat
deriving Repr, DecidableEq

/-- `db.users.find_one({"username": u})`: first record with that username. -/
def findUser (db : List UserRec) (u : String) : Option UserRec :=
  db.find? (fun r => r.username == u)

/-- `db.users.find_one({"google_id": g})` (src/auth.py line 144). -/
def findByGoogleId (db : List UserRec) (g : String) : Option UserRec :=
  db.find? (fun r => r.google_id == some g)

/-- Number of user records carrying a given username (identifier). -/
def countIdentifier (db : List UserRec) (u : String) : Nat :=
  (db.filter (fun r => r.username == u)).length

/-- Number of user records carrying a given google subject id. -/
def countGoogleId (db : List UserRec) (g : String) : Nat :=
  (db.filter (fun r => r.google_id == some g)).length

/-- `signup` from src/auth.py lines 104-113.  The duplicate-username check
runs first; then the emptiness check; then the password is hashed in full
and the new record inserted.  Returns the response and the new collection. -/
def signup (db : List UserRec) (salt : Nat) (username password : String) :
    Outcome String × List UserRec :=
  match findUser db username with
  | some _ => (.httpError 400 "User already exists", db)
  | none =>
    if username == "" || password == "" then
      (.httpError 400 "Username and password are required", db)
    else
      (.ok "Account created!",
        db ++ [⟨username, some (hashpw password salt), none, none, none, none⟩])

/-- `login` from src/auth.py lines 116-132.  A missing user and a failed
`bcrypt.checkpw` collapse to one 401.  A record without a
`hashed_password` field (a federated account) raises `KeyError`
at `user['hashed_password']`, an uncaught 500.  On success the response is
the issued token together with the echoed username. -/
def login (db : List UserRec) (secret : String) (now : Nat)
    (username password : String) : Outcome (Token × String) :=
  match findUser db username with
  | none => .httpError 401 "Invalid credentials"
  | some u =>
    match u.hashed_password with
    | none => .serverError "KeyError: hashed_password"
    | some h =>
      if checkpw password h then .ok (issueToken secret u.username now, u.username)
      else .httpError 401 "Invalid credentials"

/-- The verified claim extracted from a Google credential
(`id_token.verify_oauth2_token`, src/auth.py lines 138-142). -/
structure IdInfo where
  sub : String
  email : String
  name : String
deriving Repr, DecidableEq

/-- Auth-side state: the `users` collection plus the log of welcome-email
attempts made by `send_welcome_email` (recipient email and name). -/
structure AuthState where
  users : List UserRec
  sentEmails : List (String × String)
deriving Repr, DecidableEq

/-- `google_login` from src/auth.py lines 136-170.  `none` stands for a
credential the Google verifier rejects (the raised exception is caught and
turned into a 400).  Otherwise: look up by `google_id`; if absent, insert a
new user keyed on the email and attempt exactly one welcome email
(`send_welcome_email` swallows its own failures); always issue a token
for the email of the credential. -/
def google_login (secret : String) (now : Nat) (st : AuthState)
    (cred : Option IdInfo) : Outcome (Token × String) × AuthState :=
  match cred with
  | none => (.httpError 400 "invalid google credential", st)
  | some info =>
    match findByGoogleId st.users info.sub with
    | some _ => (.ok (issueToken secret info.email now, info.email), st)
    | none =>
      let newUser : UserRec :=
        ⟨info.email, none, some info.sub, some info.name, some info.email, some now⟩
      (.ok (issueToken secret info.email now, info.email),
        ⟨st.users ++ [newUser], st.sentEmails ++ [(info.email, info.name)]⟩)

/-- One document of the `stories` collection (src/main.py lines 65-73 and
100-110).  `oid` is the hex string of the Mongo `_id`. -/
structure Story where
  oid : String
  username : String
  title : String
  story : String
  story_type : String
  saved_at : Nat
  updated_at : Option Nat
deriving Repr, DecidableEq

/-- A character `bson.ObjectId` accepts inside a 24-character id string. -/
def isHexChar (c : Char) : Bool :=
  c.isDigit || (('a' ≤ c) && (c ≤ 'f')) || (('A' ≤ c) && (c ≤ 'F'))

/-- `bson.ObjectId(s)` on a string succeeds exactly for a 24-character hex
string; anything else raises `InvalidId`. -/
def isValidObjectId (s : String) : Bool :=
  s.length == 24 && s.toList.all isHexChar

/-- Replace the first record matching `p` (Mongo `update_one` semantics). -/
def updateFirst (p : Story → Bool) (f : Story → Story) : List Story → List Story
  | [] => []
  | d :: ds => if p d then f d :: ds else d :: updateFirst p f ds

/-- Remove the first record matching `p` (Mongo `delete_one` semantics). -/
def removeFirst (p : Story → Bool) : List Story → List Story
  | [] => []
  | d :: ds => if p d then ds else d :: removeFirst p ds

/-- `get_my_stories` from src/main.py lines 79-87:
`stories_col.find({"username": user})`.  (The handler then stringifies
`_id` and `saved_at` in place; the returned set of records is this filter.) -/
def get_my_stories (st : List Story) (user : String) : List Story :=
  st.filter (fun d => d.username == user)

/-- `update_story` from src/main.py lines 91-115, after the token has been
resolved to `user`.  `ObjectId(story_id)` runs before any storage access and
raises on a malformed id (uncaught, a 500).  Otherwise `update_one` is
filtered by `(_id, username)`; `modified_count` is 0 when the filter matched
nothing or the `$set` changed nothing, and the handler then raises 404. -/
def update_story (st : List Story) (now : Nat) (user story_id : String)
    (new_title new_story new_story_type : String) : Outcome String × List Story :=
  if isValidObjectId story_id then
    match st.find? (fun d => d.oid == story_id && d.username == user) with
    | none => (.httpError 404 "Story not found or not updated", st)
    | some d =>
      let d2 : Story := { d with title := new_title, story := new_story,
                                 story_type := new_story_type, updated_at := some now }
      if d2 = d then (.httpError 404 "Story not found or not updated", st)
      else
        (.ok "Story updated!",
          updateFirst (fun x => x.oid == story_id && x.username == user) (fun _ => d2) st)
  else (.serverError "bson.errors.InvalidId", st)

/-- `delete_story` from src/main.py lines 119-127, after token resolution.
`ObjectId(story_id)` raises on a malformed id before any storage access;
otherwise `delete_one` is filtered by `(_id, username)` and a
`deleted_count` of 0 becomes a 404. -/
def delete_story (st : List Story) (user story_id : String) :
    Outcome String × List Story :=
  if isValidObjectId story_id then
    match st.find? (fun d => d.oid == story_id && d.username == user) with
    | none => (.httpError 404 "Story not found or not deleted", st)
    | some _ =>
      (.ok "Story deleted!",
        removeFirst (fun x => x.oid == story_id && x.username == user) st)
  else (.serverError "bson.errors.InvalidId", st)

/-- What the one outbound Gemini call can come back with: an HTTP response
(status, raw text, and the parse of `candidates[0].content.parts[0].text` —
`.error msg` when that chain of lookups raises), a read timeout, or any
other raised exception. -/
inductive UpstreamResult where
  | response (status : Nat) (text : String) (parsed : Except String String)
  | readTimeout
  | exn (msg : String)
deriving Repr

/-- The `length_hint` selection in src/main.py lines 141-146. -/
def length_hint (length : String) : String :=
  if length == "short" then "about 300 words"
  else if length == "long" then "at least 1500 words"
  else "about 800 words"

/-- The prompt built at src/main.py line 148. -/
def buildPrompt (idea story_type tone length : String) : String :=
  "Write a " ++ tone ++ " " ++ story_type ++ " of " ++ length_hint length ++
    " based on this idea: " ++ idea

/-- `generate_story` from src/main.py lines 134-175.  `up` maps the prompt
to whatever the upstream call produces.  A non-200 status returns the raw
error text inline; a timeout or any other exception is caught and becomes a
placeholder string; every path returns a success-shaped `{"story": ...}`. -/
def generate_story (idea story_type tone length : String)
    (up : String → UpstreamResult) : Outcome String :=
  match up (buildPrompt idea story_type tone length) with
  | .response status text parsed =>
    if status != 200 then .ok ("Gemini API error: " ++ text)
    else
      match parsed with
      | .ok s => .ok s
      | .error e => .ok ("Gemini request failed: " ++ e)
  | .readTimeout =>
    .ok "Gemini request timed out. Please check internet/firewall or try a shorter prompt."
  | .exn e => .ok ("Gemini request failed: " ++ e)

/-! Helper lemmas shared by the claim theorems. -/

theorem filter_nil_of_find?_none {α : Type} (p : α → Bool) (l : List α)
    (h : l.find? p = none) : l.filter p = [] := by
  induction l with
  | nil => rfl
  | cons a l ih =>
    rw [List.find?_cons] at h
    cases hp : p a with
    | true => simp [hp] at h
    | false =>
      rw [hp] at h
      simp only [List.filter_cons, hp, Bool.false_eq_true, if_false]
      exact ih h

theorem find?_none_append {α : Type} (p : α → Bool) (l1 l2 : List α)
    (h : l1.find? p = none) : (l1 ++ l2).find? p = l2.find? p := by
  induction l1 with
  | nil => rfl
  | cons a l ih =>
    rw [List.find?_cons] at h
    cases hp : p a with
    | true => simp [hp] at h
    | false =>
      rw [hp] at h
      rw [List.cons_append, List.find?_cons, hp]
      exact ih h

/-- C2: an update or delete issued by user `A` against a story id that either
does not exist in the collection or belongs to a different owner returns
the same 404 in both cases and leaves the collection unchanged; the
ownership filter is part of the storage query itself. -/
theorem cross_owner_update_delete_not_found (st : List Story) (now : Nat)
    (A sid t b ty : String) (hid : isValidObjectId sid = true)
    (h : ∀ d ∈ st, d.oid = sid → d.username ≠ A) :
    update_story st now A sid t b ty =
      (Outcome.httpError 404 "Story not found or not updated", st) ∧
    delete_story st A sid =
      (Outcome.httpError 404 "Story not found or not deleted", st) := by
  have hfind : st.find? (fun d => d.oid == sid && d.username == A) = none := by
    rw [List.find?_eq_none]
    intro d hd
    simp only [Bool.and_eq_true, beq_iff_eq, not_and]
    exact fun hoid hu => h d hd hoid hu
  exact ⟨by simp [update_story, hid, hfind], by simp [delete_story, hid, hfind]⟩

/-- Witness for C2 at a concrete state: a story owned by bob, update and
delete attempted by alice. -/
theorem cross_owner_update_delete_not_found_witness :
    update_story [⟨"aaaaaaaaaaaaaaaaaaaaaaaa", "bob", "t", "s", "ty", 0, none⟩] 7
        "alice" "aaaaaaaaaaaaaaaaaaaaaaaa" "nt" "ns" "nty" =
      (Outcome.httpError 404 "Story not found or not updated",
        [⟨"aaaaaaaaaaaaaaaaaaaaaaaa", "bob", "t", "s", "ty", 0, none⟩]) ∧
    delete_story [⟨"aaaaaaaaaaaaaaaaaaaaaaaa", "bob", "t", "s", "ty", 0, none⟩]
        "alice" "aaaaaaaaaaaaaaaaaaaaaaaa" =
      (Outcome.httpError 404 "Story not found or not deleted",
        [⟨"aaaaaaaaaaaaaaaaaaaaaaaa", "bob", "t", "s", "ty", 0, none⟩]) :=
  cross_owner_update_delete_not_found _ 7 "alice" "aaaaaaaaaaaaaaaaaaaaaaaa"
    "nt" "ns" "nty" (by decide) (by decide)

/-- C3: the list-my-stories query is filtered by the caller's username, so
every story it returns is owned by the caller; a story owned by anyone
else never appears. -/
theorem my_stories_only_own (st : List Story) (A : String) (d : Story)
    (hd : d ∈ get_my_stories st A) : d.username = A := by
  have hm : d ∈ st ∧ d.username = A := by simpa [get_my_stories] using hd
  exact hm.2

/-- Witness for C3 at a concrete state. -/
theorem my_stories_only_own_witness :
    (⟨"aaaaaaaaaaaaaaaaaaaaaaaa", "alice", "t", "s", "ty", 0, none⟩ : Story).username
      = "alice" :=
  my_stories_only_own
    [⟨"aaaaaaaaaaaaaaaaaaaaaaaa", "alice", "t", "s", "ty", 0, none⟩,
     ⟨"bbbbbbbbbbbbbbbbbbbbbbbb", "bob", "t2", "s2", "ty2", 1, none⟩]
    "alice" _ (by decide)

/-- C10: when the path id is not a well-formed ObjectId string the
conversion raises before any storage access, so both handlers end in an
uncaught exception (HTTP 500) with the collection untouched, and a 404
outcome is only reachable for well-formed ids. -/
theorem malformed_objectid_server_error (st : List Story) (now : Nat)
    (user sid t b ty : String) (h : isValidObjectId sid = false) :
    update_story st now user sid t b ty = (Outcome.serverError "bson.errors.InvalidId", st) ∧
    delete_story st user sid = (Outcome.serverError "bson.errors.InvalidId", st) ∧
    (∀ (st2 : List Story) (now2 : Nat) (u2 sid2 t2 b2 y2 d2 : String) (st3 : List Story),
      update_story st2 now2 u2 sid2 t2 b2 y2 = (Outcome.httpError 404 d2, st3) →
      isValidObjectId sid2 = true) ∧
    (∀ (st2 : List Story) (u2 sid2 d2 : String) (st3 : List Story),
      delete_story st2 u2 sid2 = (Outcome.httpError 404 d2, st3) →
      isValidObjectId sid2 = true) := by
  refine ⟨by simp [update_story, h], by simp [delete_story, h], ?_, ?_⟩
  · intro st2 now2 u2 sid2 t2 b2 y2 d2 st3 heq
    by_cases hv : isValidObjectId sid2
    · exact hv
    · exfalso
      simp only [Bool.not_eq_true] at hv
      simp [update_story, hv] at heq
  · intro st2 u2 sid2 d2 st3 heq
    by_cases hv : isValidObjectId sid2
    · exact hv
    · exfalso
      simp only [Bool.not_eq_true] at hv
      simp [delete_story, hv] at heq

/-- Witness for C10 at the concrete malformed id string "xyz". -/
theorem malformed_objectid_server_error_witness :
    update_story [] 3 "alice" "xyz" "t" "s" "ty" =
      (Outcome.serverError "bson.errors.InvalidId", []) ∧
    delete_story [] "alice" "xyz" =
      (Outcome.serverError "bson.errors.InvalidId", []) :=
  ⟨(malformed_objectid_server_error [] 3 "alice" "xyz" "t" "s" "ty" (by decide)).1,
   (malformed_objectid_server_error [] 3 "alice" "xyz" "t" "s" "ty" (by decide)).2.1⟩

/-- C4 counterexample: the claim quantifies over every subject, but for the
empty-string subject the handler's truthiness test
`payload.get("username") or payload.get("sub")` treats the claim as
missing, so a freshly issued token for subject "" verifies to the uniform
401 instead of round-tripping to "". -/
theorem empty_subject_token_invalid :
    get_current_user "k" 0 (issueToken "k" "" 0) =
      Outcome.httpError 401 "Could not validate credentials" ∧
    Outcome.httpError 401 "Could not validate credentials" ≠ Outcome.ok "" := by
  constructor
  · decide
  · decide

/-- C4 (amended to nonempty subjects): a token issued for a nonempty
subject verifies to that subject immediately; strictly after the 30-minute
expiry it verifies to the uniform 401; and any token whose payload differs
in any way from the signed payload, with the original signature kept,
verifies to the same uniform 401 at every time. -/
theorem token_round_trip_nonempty_subject (secret s : String) (t t2 : Nat)
    (hs : s ≠ "") :
    get_current_user secret t (issueToken secret s t) = Outcome.ok s ∧
    (t + ACCESS_TOKEN_EXPIRE_MINUTES * 60 < t2 →
      get_current_user secret t2 (issueToken secret s t) =
        Outcome.httpError 401 "Could not validate credentials") ∧
    (∀ p2 : TokenPayload, p2 ≠ (issueToken secret s t).payload → ∀ t3 : Nat,
      get_current_user secret t3 ⟨p2, (issueToken secret s t).sig⟩ =
        Outcome.httpError 401 "Could not validate credentials") := by
  refine ⟨?_, ?_, ?_⟩
  · unfold get_current_user issueToken jwtEncode
    rw [if_pos ⟨rfl, Nat.le_add_right t _⟩]
    simp [pyOrStr, pyTruthy, hs]
  · intro hlt
    unfold get_current_user issueToken jwtEncode
    rw [if_neg]
    rintro ⟨-, hle⟩
    simp only [macSign] at hle
    omega
  · intro p2 hne t3
    unfold get_current_user
    rw [if_neg]
    rintro ⟨hsig, -⟩
    apply hne
    have hsnd := congrArg Prod.snd hsig
    simpa [issueToken, jwtEncode, macSign] using hsnd.symm

/-- Witness for C4's amended theorem at subject "alice", issued at time 5,
checked at time 5 and at time 5 + 30 minutes + 1. -/
theorem token_round_trip_nonempty_subject_witness :
    get_current_user "k" 5 (issueToken "k" "alice" 5) = Outcome.ok "alice" ∧
    get_current_user "k" 1806 (issueToken "k" "alice" 5) =
      Outcome.httpError 401 "Could not validate credentials" := by
  have h := token_round_trip_nonempty_subject "k" "alice" 5 1806 (by decide)
  exact ⟨h.1, h.2.1 (by decide)⟩

/-- C5: a login with an existing username but wrong password and a login
with a nonexistent username produce literally the same outcome — the same
401 status with the same detail — so the caller cannot tell whether the
account exists. -/
theorem login_failure_indistinguishable (db : List UserRec) (secret : String)
    (now : Nat) (a pw b pb : String) (u : UserRec) (hh : BcryptHash)
    (h1 : findUser db a = some u) (h2 : u.hashed_password = some hh)
    (h3 : checkpw pw hh = false) (h4 : findUser db b = none) :
    login db secret now a pw = Outcome.httpError 401 "Invalid credentials" ∧
    login db secret now b pb = Outcome.httpError 401 "Invalid credentials" ∧
    login db secret now a pw = login db secret now b pb := by
  refine ⟨?_, ?_, ?_⟩ <;> simp [login, h1, h2, h3, h4]

/-- Witness for C5: alice exists with password "pw123"; a login as alice
with "wrong" and a login as the absent bob coincide. -/
theorem login_failure_indistinguishable_witness :
    login [⟨"alice", some ⟨"pw123", 0⟩, none, none, none, none⟩] "k" 0 "alice" "wrong" =
      Outcome.httpError 401 "Invalid credentials" ∧
    login [⟨"alice", some ⟨"pw123", 0⟩, none, none, none, none⟩] "k" 0 "bob" "x" =
      Outcome.httpError 401 "Invalid credentials" :=
  ⟨(login_failure_indistinguishable _ "k" 0 "alice" "wrong" "bob" "x"
      ⟨"alice", some ⟨"pw123", 0⟩, none, none, none, none⟩ ⟨"pw123", 0⟩
      (by decide) rfl (by decide) (by decide)).1,
   (login_failure_indistinguishable _ "k" 0 "alice" "wrong" "bob" "x"
      ⟨"alice", some ⟨"pw123", 0⟩, none, none, none, none⟩ ⟨"pw123", 0⟩
      (by decide) rfl (by decide) (by decide)).2.1⟩

/-- C1 counterexample: sign up a local account under the identifier
"alice@x.com", then perform a federated login whose verified email is that
same identifier but whose google subject id is new.  The federated flow
deduplicates by `google_id` only, so it inserts a second user record with
the same identifier: the collection ends with two records for
"alice@x.com", violating the at-most-one-Identity-per-identifier claim. -/
theorem google_login_duplicates_identifier :
    countIdentifier
      ((google_login "k" 0 ⟨(signup [] 0 "alice@x.com" "pw").2, []⟩
        (some ⟨"gsub1", "alice@x.com", "Alice"⟩)).2.users) "alice@x.com" = 2 := by
  decide

/-- C1 (amended): each flow preserves uniqueness of its own lookup key —
sign-up never creates a second record for an existing username, and
federated login never creates a second record for an existing google
subject id — but federated login is keyed on the subject id alone, so
identifier uniqueness across the two flows fails (see the counterexample). -/
theorem signup_and_federation_preserve_key_uniqueness
    (db : List UserRec) (salt : Nat) (u p x : String) (st : AuthState)
    (secret : String) (now : Nat) (cred : Option IdInfo) (g : String)
    (h1 : countIdentifier db x ≤ 1) (h2 : countGoogleId st.users g ≤ 1) :
    countIdentifier (signup db salt u p).2 x ≤ 1 ∧
    countGoogleId (google_login secret now st cred).2.users g ≤ 1 := by
  constructor
  · cases hf : findUser db u with
    | some r => simpa [signup, hf] using h1
    | none =>
      by_cases he : (u == "" || p == "") = true
      · simpa [signup, hf, he] using h1
      · have hz : countIdentifier db u = 0 := by
          unfold countIdentifier
          rw [filter_nil_of_find?_none _ _ hf]
          rfl
        by_cases hx : u = x
        · subst hx
          unfold countIdentifier at hz ⊢
          simp [signup, hf, he, List.filter_append, hz]
        · unfold countIdentifier at h1 ⊢
          have hxne : ¬ (u == x) = true := by simpa using hx
          simpa [signup, hf, he, List.filter_append, hxne] using h1
  · cases cred with
    | none => simpa [google_login] using h2
    | some info =>
      cases hg : findByGoogleId st.users info.sub with
      | some r => simpa [google_login, hg] using h2
      | none =>
        have hz : countGoogleId st.users info.sub = 0 := by
          unfold countGoogleId
          rw [filter_nil_of_find?_none _ _ hg]
          rfl
        by_cases hgx : info.sub = g
        · subst hgx
          unfold countGoogleId at hz ⊢
          simp [google_login, hg, List.filter_append, hz]
        · unfold countGoogleId at h2 ⊢
          have hgne : ¬ ((some info.sub : Option String) == some g) = true := by
            simpa using hgx
          simpa [google_login, hg, List.filter_append, hgne] using h2

/-- Witness for C1's amended theorem at a concrete state. -/
theorem signup_and_federation_preserve_key_uniqueness_witness :
    countIdentifier (signup [] 0 "alice" "pw").2 "alice" ≤ 1 ∧
    countGoogleId (google_login "k" 0 ⟨[], []⟩ (some ⟨"g1", "a@x.com", "A"⟩)).2.users
      "g1" ≤ 1 :=
  signup_and_federation_preserve_key_uniqueness [] 0 "alice" "pw" "alice"
    ⟨[], []⟩ "k" 0 (some ⟨"g1", "a@x.com", "A"⟩) "g1" (by decide) (by decide)

/-- C6: a first federated login for a google subject id not yet in the
store inserts exactly one user record and logs exactly one welcome-email
attempt, and returns a token issued for the credential's email; any later
federated login with the same subject id leaves the state exactly as it
was (zero records, zero notifications) while still returning a token
issued for the email of that later credential. -/
theorem federated_login_create_notify_once (secret : String) (t1 t2 : Nat)
    (st : AuthState) (info : IdInfo)
    (h : findByGoogleId st.users info.sub = none) :
    (google_login secret t1 st (some info)).1 =
      Outcome.ok (issueToken secret info.email t1, info.email) ∧
    (google_login secret t1 st (some info)).2.users.length = st.users.length + 1 ∧
    (google_login secret t1 st (some info)).2.sentEmails.length =
      st.sentEmails.length + 1 ∧
    (∀ info2 : IdInfo, info2.sub = info.sub →
      (google_login secret t2 (google_login secret t1 st (some info)).2 (some info2)).1 =
        Outcome.ok (issueToken secret info2.email t2, info2.email) ∧
      (google_login secret t2 (google_login secret t1 st (some info)).2 (some info2)).2 =
        (google_login secret t1 st (some info)).2) := by
  have hstep : google_login secret t1 st (some info) =
      (Outcome.ok (issueToken secret info.email t1, info.email),
        ⟨st.users ++
            [⟨info.email, none, some info.sub, some info.name, some info.email, some t1⟩],
         st.sentEmails ++ [(info.email, info.name)]⟩) := by
    simp [google_login, h]
  refine ⟨by rw [hstep], by rw [hstep]; simp, by rw [hstep]; simp, ?_⟩
  intro info2 hsub
  have hfind2 : findByGoogleId
      (st.users ++
        [⟨info.email, none, some info.sub, some info.name, some info.email, some t1⟩])
      info2.sub =
      some ⟨info.email, none, some info.sub, some info.name, some info.email, some t1⟩ := by
    unfold findByGoogleId at h ⊢
    simp only [hsub]
    rw [find?_none_append _ _ _ h]
    simp
  rw [hstep]
  exact ⟨by simp [google_login, hfind2], by simp [google_login, hfind2]⟩

/-- Witness for C6 at a concrete empty state and a repeat login. -/
theorem federated_login_create_notify_once_witness :
    (google_login "k" 1 ⟨[], []⟩ (some ⟨"g1", "a@x.com", "A"⟩)).1 =
      Outcome.ok (issueToken "k" "a@x.com" 1, "a@x.com") ∧
    (google_login "k" 1 ⟨[], []⟩ (some ⟨"g1", "a@x.com", "A"⟩)).2.users.length = 1 ∧
    (google_login "k" 2 (google_login "k" 1 ⟨[], []⟩
        (some ⟨"g1", "a@x.com", "A"⟩)).2 (some ⟨"g1", "a@x.com", "A"⟩)).2 =
      (google_login "k" 1 ⟨[], []⟩ (some ⟨"g1", "a@x.com", "A"⟩)).2 := by
  have h := federated_login_create_notify_once "k" 1 2 ⟨[], []⟩
    ⟨"g1", "a@x.com", "A"⟩ (by decide)
  exact ⟨h.1, h.2.1, (h.2.2.2 ⟨"g1", "a@x.com", "A"⟩ rfl).2⟩

/-- C7 counterexample: when the identifier already exists AND the password
is empty, the duplicate check runs first, so the outcome is the Conflict
error, not the InvalidInput error the claim requires for every empty
password. -/
theorem signup_conflict_beats_empty_password :
    (signup [⟨"alice", some ⟨"pw", 0⟩, none, none, none, none⟩] 0 "alice" "").1 =
      Outcome.httpError 400 "User already exists" ∧
    (signup [⟨"alice", some ⟨"pw", 0⟩, none, none, none, none⟩] 0 "alice" "").1 ≠
      Outcome.httpError 400 "Username and password are required" := by
  constructor
  · decide
  · decide

/-- C7 (amended: the empty-field rejection applies only when the identifier
is not already taken, because the conflict check runs first): an existing
identifier always yields the Conflict error with the store unchanged,
whatever the password; a fresh identifier with an empty field yields the
InvalidInput error with the store unchanged; and a fresh identifier with
both fields nonempty hashes the password, appends exactly the new record,
and returns the acknowledgment message — the success value carries no
token. -/
theorem signup_outcomes (db : List UserRec) (salt : Nat) (u p : String) :
    (∀ r : UserRec, findUser db u = some r →
      signup db salt u p = (Outcome.httpError 400 "User already exists", db)) ∧
    (findUser db u = none → (u = "" ∨ p = "") →
      signup db salt u p =
        (Outcome.httpError 400 "Username and password are required", db)) ∧
    (findUser db u = none → u ≠ "" → p ≠ "" →
      signup db salt u p =
        (Outcome.ok "Account created!",
          db ++ [⟨u, some (hashpw p salt), none, none, none, none⟩])) := by
  refine ⟨?_, ?_, ?_⟩
  · intro r hr
    simp [signup, hr]
  · intro hn he
    rcases he with he | he <;> subst he <;> simp [signup, hn]
  · intro hn hu hp
    simp [signup, hn, hu, hp]

/-- Witness for C7's amended theorem: the concrete scenario of the spec —
a fresh sign-up of alice succeeds and a repeat sign-up conflicts. -/
theorem signup_outcomes_witness :
    signup [] 0 "alice" "pw123" =
      (Outcome.ok "Account created!",
        [⟨"alice", some (hashpw "pw123" 0), none, none, none, none⟩]) ∧
    signup [⟨"alice", some (hashpw "pw123" 0), none, none, none, none⟩] 0
        "alice" "other" =
      (Outcome.httpError 400 "User already exists",
        [⟨"alice", some (hashpw "pw123" 0), none, none, none, none⟩]) :=
  ⟨(signup_outcomes [] 0 "alice" "pw123").2.2 rfl (by decide) (by decide),
   (signup_outcomes [⟨"alice", some (hashpw "pw123" 0), none, none, none, none⟩]
      0 "alice" "other").1 ⟨"alice", some (hashpw "pw123" 0), none, none, none, none⟩
      (by decide)⟩

/-- The 129-character password used to exercise the missing length bound. -/
def longPassword : String := String.mk (List.replicate 129 'a')

/-- C8: the source declares `MAX_PASSWORD_LENGTH = 128` but never uses it —
a sign-up whose password is 129 characters is neither rejected nor
truncated: it succeeds and the stored hash is computed over the full
129-character plaintext. -/
theorem long_password_accepted_unbounded :
    longPassword.length = MAX_PASSWORD_LENGTH + 1 ∧
    signup [] 0 "alice" longPassword =
      (Outcome.ok "Account created!",
        [⟨"alice", some (hashpw longPassword 0), none, none, none, none⟩]) := by
  constructor
  · rfl
  · rfl

/-- C9: whatever the upstream Gemini call produces — a non-200 response, an
unparseable 200 response, a read timeout, or any other exception — the
endpoint returns a success-shaped result whose story field is either the
generated text or a textual placeholder; no error outcome is ever
propagated. -/
theorem generate_story_always_success_shape (idea stype tone len : String)
    (up : String → UpstreamResult) :
    (∃ s, generate_story idea stype tone len up = Outcome.ok s) ∧
    (up (buildPrompt idea stype tone len) = UpstreamResult.readTimeout →
      generate_story idea stype tone len up = Outcome.ok
        "Gemini request timed out. Please check internet/firewall or try a shorter prompt.") ∧
    (∀ (status : Nat) (text : String) (parsed : Except String String),
      up (buildPrompt idea stype tone len) = UpstreamResult.response status text parsed →
      status ≠ 200 →
      generate_story idea stype tone len up = Outcome.ok ("Gemini API error: " ++ text)) ∧
    (∀ e : String, up (buildPrompt idea stype tone len) = UpstreamResult.exn e →
      generate_story idea stype tone len up = Outcome.ok ("Gemini request failed: " ++ e)) := by
  refine ⟨?_, ?_, ?_, ?_⟩
  · cases hup : up (buildPrompt idea stype tone len) with
    | response status text parsed =>
      by_cases h2 : (status != 200) = true
      · exact ⟨"Gemini API error: " ++ text, by simp [generate_story, hup, h2]⟩
      · cases parsed with
        | ok s => exact ⟨s, by simp [generate_story, hup, h2]⟩
        | error e =>
          exact ⟨"Gemini request failed: " ++ e, by simp [generate_story, hup, h2]⟩
    | readTimeout =>
      exact
        ⟨"Gemini request timed out. Please check internet/firewall or try a shorter prompt.",
         by simp [generate_story, hup]⟩
    | exn e =>
      exact ⟨"Gemini request failed: " ++ e, by simp [generate_story, hup]⟩
  · intro hup
    simp [generate_story, hup]
  · intro status text parsed hup hs
    have hb : (status != 200) = true := by simpa using hs
    simp [generate_story, hup, hb]
  · intro e hup
    simp [generate_story, hup]

/-- Witness for C9: a timing-out upstream still yields the success-shaped
placeholder response. -/
theorem generate_story_always_success_shape_witness :
    generate_story "a cat" "story" "funny" "short"
        (fun _ => UpstreamResult.readTimeout) =
      Outcome.ok
        "Gemini request timed out. Please check internet/firewall or try a shorter prompt." :=
  (generate_story_always_success_shape "a cat" "story" "funny" "short"
    (fun _ => UpstreamResult.readTimeout)).2.1 rfl
